import Mathlib

/-!
Verification of the reverie-engine core: the `Vao` GPU vertex resource
(reverie-engine-opengl/src/vao.rs) and the `Scene` ECS dispatcher
(reverie-engine/src/scene.rs), shallowly embedded as executable Lean
definitions whose side effects are recorded as explicit call traces.
-/

namespace Reverie

/-! ## OpenGL constants (values of the `gl` bindings used by vao.rs) -/

def GL_ARRAY_BUFFER : Nat := 0x8892
def GL_DEPTH_TEST : Nat := 0x0B71
def GL_BLEND : Nat := 0x0BE2
def GL_SRC_ALPHA : Nat := 0x0302
def GL_ONE_MINUS_SRC_ALPHA : Nat := 0x0303
def GL_FRONT_AND_BACK : Nat := 0x0408
def GL_LINE : Nat := 0x1B01
def GL_FILL : Nat := 0x1B02
def GL_CULL_FACE : Nat := 0x0B44
def GL_TEXTURE_2D : Nat := 0x0DE1
def GL_TRIANGLES : Nat := 0x0004

/-- One native OpenGL call issued through the `Gl` function table.
Each constructor records the arguments the Rust code passes. -/
inductive GLCall where
  | GenVertexArrays
  | GenBuffers
  | BindVertexArray (handle : Nat)
  | BindBuffer (target : Nat) (handle : Nat)
  | BufferData (target : Nat) (size : Int) (data : Nat) (usage : Nat)
  | EnableVertexAttribArray (index : Nat)
  | VertexAttribPointer (index : Nat) (size : Int) (ty : Nat)
      (normalized : Bool) (stride : Int) (byteOffset : Nat)
  | Enable (cap : Nat)
  | Disable (cap : Nat)
  | BlendFunc (sfactor : Nat) (dfactor : Nat)
  | PolygonMode (face : Nat) (mode : Nat)
  | DrawArrays (mode : Nat) (first : Int) (count : Int)
  | BindTexture (target : Nat) (handle : Nat)
  | DeleteBuffers (handle : Nat)
  | DeleteVertexArrays (handle : Nat)
deriving DecidableEq, Repr

/-- Global OpenGL binding state relevant to vao.rs: the bound array buffer,
the bound vertex array and the bound 2D texture (0 = none). -/
structure GLBindings where
  arrayBuffer : Nat
  vertexArray : Nat
  texture2d : Nat
deriving DecidableEq, Repr

/-- How one GL call updates the global binding state. -/
def stepBinding (b : GLBindings) : GLCall → GLBindings
  | .BindBuffer target h => if target = GL_ARRAY_BUFFER then { b with arrayBuffer := h } else b
  | .BindVertexArray h => { b with vertexArray := h }
  | .BindTexture target h => if target = GL_TEXTURE_2D then { b with texture2d := h } else b
  | _ => b

/-- Run a call trace over the binding state. -/
def runBindings (b : GLBindings) (tr : List GLCall) : GLBindings :=
  tr.foldl stepBinding b

/-- Modelled from the spec: `VaoConfig` (reverie-engine-opengl/src/vao/config.rs,
not shown in the sources) is "a shared configuration (depth/blend/wireframe/culling
flags)"; only these four boolean fields are read by vao.rs. -/
structure VaoConfig where
  depth_test : Bool
  blend : Bool
  wireframe : Bool
  culling : Bool
deriving DecidableEq, Repr

/-- The `Vao` struct of vao.rs: native vertex-array and buffer handles,
vertex count and a reference to the shared config. The `gl` function table
is represented by the call traces the operations emit. -/
structure Vao where
  vao : Nat
  vbo : Nat
  vertex_num : Int
  config : VaoConfig
deriving DecidableEq, Repr

/-- `usize` value of a Rust `as usize` cast applied to a (possibly negative)
`GLint`, two's-complement at 64 bits. -/
def glintAsUsize (x : Int) : Nat := (x % (2 ^ 64)).toNat

/-- `usize` multiplication (wraps at 2^64). -/
def usizeMul (a b : Nat) : Nat := (a * b) % (2 ^ 64)

/-- The attribute-configuration loop of `Vao::new`: for each layout entry it
enables the attribute slot and sets its pointer; the byte offset passed is the
running `offset` (in float elements) times `size_of::<GLfloat>() = 4`, and
`offset` then grows by the entry's component count cast to `usize`. -/
def attribCalls (types : List Nat) (sizes : List Int) (stride : Int)
    (i : Nat) (offset : Nat) : List GLCall :=
  match types, sizes with
  | t :: ts, sz :: szs =>
      .EnableVertexAttribArray i ::
      .VertexAttribPointer i sz t false stride (usizeMul offset 4) ::
      attribCalls ts szs stride (i + 1) ((offset + glintAsUsize sz) % (2 ^ 64))
  | _, _ => []

/-- `Vao::new` (vao.rs lines 44-98). The two `debug_assert_eq!` length checks
are modelled as a fatal precondition: a mismatch yields `none` (the assertion
fires and construction terminates). `vaoH`/`vboH` are the handles the driver
writes back from `GenVertexArrays`/`GenBuffers`; `data` is the opaque data
pointer. Returns the constructed struct and the native call trace. -/
def Vao.new (vaoH vboH : Nat) (size : Int) (data : Nat) (usage : Nat)
    (num_attributes : Nat) (attribute_types : List Nat) (attribute_sizes : List Int)
    (stride : Int) (vertex_num : Int) (config : VaoConfig) :
    Option (Vao × List GLCall) :=
  if num_attributes = attribute_types.length ∧ num_attributes = attribute_sizes.length then
    some (⟨vaoH, vboH, vertex_num, config⟩,
      [.GenVertexArrays, .GenBuffers,
       .BindVertexArray vaoH,
       .BindBuffer GL_ARRAY_BUFFER vboH,
       .BufferData GL_ARRAY_BUFFER size data usage]
      ++ attribCalls attribute_types attribute_sizes stride 0 0
      ++ [.BindBuffer GL_ARRAY_BUFFER 0,
          .BindVertexArray 0])
  else
    none

/-- Opaque model of `UniformVariables` (external shader interface). -/
def UniformVariables : Type := List (String × Int)

/-- `Vao::draw` (vao.rs lines 100-132): sets the four render states from
`config`, binds the vertex array, draws `[0, vertex_num)`, unbinds the
vertex array and the 2D texture. The `_uniforms` parameter is unused by
the Rust body. -/
def Vao.draw (v : Vao) (_uniforms : UniformVariables) (draw_mode : Nat) : List GLCall :=
  (if v.config.depth_test then [.Enable GL_DEPTH_TEST] else [.Disable GL_DEPTH_TEST])
  ++ (if v.config.blend then
        [.Enable GL_BLEND, .BlendFunc GL_SRC_ALPHA GL_ONE_MINUS_SRC_ALPHA]
      else [.Disable GL_BLEND])
  ++ (if v.config.wireframe then [.PolygonMode GL_FRONT_AND_BACK GL_LINE]
      else [.PolygonMode GL_FRONT_AND_BACK GL_FILL])
  ++ (if v.config.culling then [.Enable GL_CULL_FACE] else [.Disable GL_CULL_FACE])
  ++ [.BindVertexArray v.vao,
      .DrawArrays draw_mode 0 v.vertex_num,
      .BindVertexArray 0,
      .BindTexture GL_TEXTURE_2D 0]

/-- `Vao::draw_triangles` (vao.rs lines 135-137). -/
def Vao.draw_triangles (v : Vao) (uniforms : UniformVariables) : List GLCall :=
  v.draw uniforms GL_TRIANGLES

/-- `impl Drop for Vao` (vao.rs lines 140-151): delete the buffer if its
handle is non-zero, then the vertex array if its handle is non-zero. -/
def Vao.drop (v : Vao) : List GLCall :=
  (if v.vbo > 0 then [.DeleteBuffers v.vbo] else [])
  ++ (if v.vao > 0 then [.DeleteVertexArrays v.vao] else [])

/-! ## Scene / ECS (reverie-engine/src/scene.rs)

Components are stored per entity as an association list from a component
type tag to an opaque payload (at most one component per type, per the
`hecs` overwrite semantics). `TransformComponent` and `SpriteComponent`
are the two built-in component types scene.rs queries for. -/

abbrev TypeTag := Nat

/-- Type tag of `TransformComponent`. -/
def transformTag : TypeTag := 0

/-- Type tag of `SpriteComponent`. -/
def spriteTag : TypeTag := 1

/-- The components attached to one entity: tag-to-payload association list. -/
structure EntityData where
  comps : List (TypeTag × Nat)
deriving DecidableEq, Repr

/-- Does the entity possess a component of the given type? -/
def EntityData.hasComp (d : EntityData) (t : TypeTag) : Bool :=
  d.comps.any (fun p => p.1 = t)

/-- Payload of the component of type `t`, if present (first occurrence). -/
def EntityData.getComp (d : EntityData) (t : TypeTag) : Option Nat :=
  (d.comps.find? (fun p => p.1 = t)).map (·.2)

/-- Insert or replace the component of type `t` (overwrite, not accumulate). -/
def EntityData.setComp (d : EntityData) (t : TypeTag) (v : Nat) : EntityData :=
  if d.hasComp t then
    ⟨d.comps.map (fun p => if p.1 = t then (t, v) else p)⟩
  else
    ⟨d.comps ++ [(t, v)]⟩

/-- The `hecs::World`: entity-id-to-components store with a fresh-id counter.
`hecs` is an external crate; it is modelled by its documented semantics:
`spawn` returns a fresh unique id, `insert_one` fails on a missing entity. -/
structure World where
  nextId : Nat
  entities : List (Nat × EntityData)
deriving DecidableEq, Repr

/-- The empty world (`hecs::World::default()`). -/
def World.empty : World := ⟨0, []⟩

/-- Does an entity with this id exist (is it alive)? -/
def World.contains (w : World) (e : Nat) : Bool :=
  w.entities.any (fun p => p.1 = e)

/-- Components of an entity, if it exists (first occurrence). -/
def World.get (w : World) (e : Nat) : Option EntityData :=
  (w.entities.find? (fun p => p.1 = e)).map (·.2)

/-- `hecs::World::spawn`: create an entity with exactly the given components,
returning its fresh id. -/
def World.spawn (w : World) (comps : List (TypeTag × Nat)) : Nat × World :=
  (w.nextId, ⟨w.nextId + 1, w.entities ++ [(w.nextId, ⟨comps⟩)]⟩)

/-- `hecs::World::insert_one`: add or replace one component on an existing
entity; `Err(NoSuchEntity)` (here `none`) if the entity does not exist. -/
def World.insert_one (w : World) (e : Nat) (t : TypeTag) (v : Nat) : Option World :=
  if w.contains e then
    some ⟨w.nextId, w.entities.map (fun p => if p.1 = e then (p.1, p.2.setComp t v) else p)⟩
  else
    none

/-- `query_mut::<(&TransformComponent, &mut SpriteComponent)>`: the entities
possessing both a Transform and a Sprite component, in store order. -/
def World.queryBoth (w : World) : List (Nat × EntityData) :=
  w.entities.filter (fun p => p.2.hasComp transformTag && p.2.hasComp spriteTag)

/-- `query_mut::<&mut SpriteComponent>`: the entities possessing a Sprite
component, in store order. -/
def World.querySprite (w : World) : List (Nat × EntityData) :=
  w.entities.filter (fun p => p.2.hasComp spriteTag)

/-- A registered `System` (trait object). scene.rs calls its `update` hook
with exclusive mutable access to the World; the `setup` and `render` hooks
take no World, so they are modelled purely by trace events. The `Frame` and
`WgpuResource` arguments are opaque (a `Nat` stands for the frame). -/
structure System where
  updateFn : Nat → World → World

/-- The `Scene` struct: a `hecs::World` plus the ordered system list. -/
structure Scene where
  world : World
  systems : List System

/-- `Scene::default()`. -/
def Scene.empty : Scene := ⟨World.empty, []⟩

/-- Observable hook invocations of one Scene phase. Systems are identified
by their position in the registration list; `systemUpdate` also records the
World state handed to the hook. -/
inductive Event where
  | spriteSetup (entity : Nat)
  | systemSetup (index : Nat)
  | systemUpdate (index : Nat) (worldSeen : World)
  | spriteRender (entity : Nat)
  | systemRender (index : Nat)
deriving DecidableEq, Repr

/-- `Scene::new_entity`: spawn an entity with exactly one Transform and one
Sprite component, returning its `EntityIndex`. -/
def Scene.new_entity (s : Scene) (transform sprite : Nat) : Nat × Scene :=
  let (e, w) := s.world.spawn [(transformTag, transform), (spriteTag, sprite)]
  (e, { s with world := w })

/-- `Scene::attach_component`: `insert_one(...).unwrap_or_log()` — on a
missing entity the `Err(NoSuchEntity)` is logged and the call panics,
modelled as `none`. -/
def Scene.attach_component (s : Scene) (e : Nat) (t : TypeTag) (v : Nat) :
    Option Scene :=
  (s.world.insert_one e t v).map (fun w => { s with world := w })

/-- `Scene::register_system`: push the boxed system onto the list. -/
def Scene.register_system (s : Scene) (sys : System) : Scene :=
  { s with systems := s.systems ++ [sys] }

/-- `Scene::setup` (scene.rs lines 44-52): call `setup` on every Sprite
component found by the query, then on every registered system in order. -/
def Scene.setup (s : Scene) : List Event :=
  (s.world.querySprite.map (fun p => Event.spriteSetup p.1))
  ++ ((List.range s.systems.length).map Event.systemSetup)

/-- The update loop of `Scene::update`: each system's `update` receives the
current World by exclusive mutable borrow and its result is the World given
to the next system. `i` is the registration index of the list head. -/
def runUpdates (frame : Nat) (w : World) (ss : List System) (i : Nat) :
    World × List Event :=
  match ss with
  | [] => (w, [])
  | sys :: rest =>
      ((runUpdates frame (sys.updateFn frame w) rest (i + 1)).1,
        Event.systemUpdate i w
          :: (runUpdates frame (sys.updateFn frame w) rest (i + 1)).2)

/-- `Scene::update` (scene.rs lines 54-58). -/
def Scene.update (s : Scene) (frame : Nat) : Scene × List Event :=
  let (w, tr) := runUpdates frame s.world s.systems 0
  ({ s with world := w }, tr)

/-- `Scene::render` (scene.rs lines 60-67): render the sprite of every
entity possessing both a Transform and a Sprite component, in query order.
No other hook is invoked by the body. -/
def Scene.render (s : Scene) : List Event :=
  s.world.queryBoth.map (fun p => Event.spriteRender p.1)

/-- The World after the first `i` registered systems have run their
`update` for this tick. -/
def worldAfterFirst (frame : Nat) (w : World) (ss : List System) (i : Nat) : World :=
  (ss.take i).foldl (fun acc sys => sys.updateFn frame acc) w

/-- Scene states reachable through the Scene public interface without any
`attach_component` call: `Scene::default()` closed under `new_entity` and
`register_system` (`setup`/`render` do not alter the component store). -/
inductive ReachableNoAttach : Scene → Prop where
  | init : ReachableNoAttach Scene.empty
  | newEntity (s : Scene) (tv sv : Nat) :
      ReachableNoAttach s → ReachableNoAttach (s.new_entity tv sv).2
  | registerSystem (s : Scene) (sys : System) :
      ReachableNoAttach s → ReachableNoAttach (s.register_system sys)

/-! ## Helper definitions for the theorems -/

/-- The render-state prefix a draw call must issue, per the configuration:
depth test toggled, blend toggled with the fixed src-alpha/one-minus-src-alpha
factors, polygon mode line or fill, face culling toggled. -/
def renderStateCalls (cfg : VaoConfig) : List GLCall :=
  (if cfg.depth_test then [.Enable GL_DEPTH_TEST] else [.Disable GL_DEPTH_TEST])
  ++ (if cfg.blend then
        [.Enable GL_BLEND, .BlendFunc GL_SRC_ALPHA GL_ONE_MINUS_SRC_ALPHA]
      else [.Disable GL_BLEND])
  ++ (if cfg.wireframe then [.PolygonMode GL_FRONT_AND_BACK GL_LINE]
      else [.PolygonMode GL_FRONT_AND_BACK GL_FILL])
  ++ (if cfg.culling then [.Enable GL_CULL_FACE] else [.Disable GL_CULL_FACE])

/-- Is the call a `DrawArrays` draw call? -/
def isDrawArrays : GLCall → Bool
  | .DrawArrays _ _ _ => true
  | _ => false

/-- The registration index carried by an update event, if any. -/
def updateIndex : Event → Option Nat
  | .systemUpdate i _ => some i
  | _ => none

/-- A do-nothing system, used by concrete witness scenes. -/
def sysId : System := ⟨fun _ w => w⟩

/-- A concrete scene with one spawned entity (transform payload 7, sprite
payload 8) and one registered system. -/
def sceneOneOne : Scene :=
  ((Scene.empty.new_entity 7 8).2).register_system sysId

/-- The claim that `Scene::render` renders all (Transform, Sprite) sprites
and then invokes the render hook of every registered system in
registration order. -/
def claimRenderSystems (s : Scene) : Prop :=
  s.render = (s.world.queryBoth.map fun p => Event.spriteRender p.1)
    ++ (List.range s.systems.length).map Event.systemRender

/-- Running sum of the component counts of the first `i` layout entries
(in float elements), the basis of the interleaved byte offsets. -/
def sumSizes (sizes : List Int) (i : Nat) : Nat :=
  ((sizes.take i).map Int.toNat).sum

/-- A sample configuration used by concrete witnesses. -/
def cfg0 : VaoConfig := ⟨true, false, true, false⟩

/-- A sample constructed Vao (handles 2 and 3). -/
def vaoLive : Vao := ⟨2, 3, 6, cfg0⟩

/-- A Vao whose handles are already zero (torn down). -/
def vaoZeroed : Vao := ⟨0, 0, 6, cfg0⟩

end Reverie

namespace Reverie

/-! ## Claims about `Vao` -/

/-- C10: the native-call sequence of `Vao::draw` (and `draw_triangles`) does
not depend on the uniforms argument: two draws of the same Vao in the same
mode with different uniform sets issue identical GL call sequences, and
`draw_triangles` is `draw` specialized to `GL_TRIANGLES`. -/
theorem vao_draw_uniforms_independent (v : Vao) (u1 u2 : UniformVariables)
    (mode : Nat) :
    v.draw u1 mode = v.draw u2 mode ∧
    v.draw_triangles u1 = v.draw_triangles u2 ∧
    v.draw_triangles u1 = v.draw u1 GL_TRIANGLES :=
  ⟨rfl, rfl, rfl⟩

/-- C3: teardown of a `Vao` deletes the buffer handle before the
vertex-array handle, each deletion only when the handle is non-zero, and a
teardown with both handles already zero issues no native call at all. -/
theorem vao_drop_teardown (v : Vao) :
    v.drop = (if 0 < v.vbo then [GLCall.DeleteBuffers v.vbo] else [])
      ++ (if 0 < v.vao then [GLCall.DeleteVertexArrays v.vao] else []) ∧
    (∀ (i j hb ha : Nat), v.drop[i]? = some (GLCall.DeleteBuffers hb) →
      v.drop[j]? = some (GLCall.DeleteVertexArrays ha) → i < j) ∧
    (v.vbo = 0 → ∀ h, GLCall.DeleteBuffers h ∉ v.drop) ∧
    (v.vao = 0 → ∀ h, GLCall.DeleteVertexArrays h ∉ v.drop) ∧
    (v.vbo = 0 → v.vao = 0 → v.drop = []) := by
  refine ⟨rfl, ?_, ?_, ?_, ?_⟩
  · intro i j hb ha hi hj
    by_cases h1 : 0 < v.vbo <;> by_cases h2 : 0 < v.vao <;>
        simp [Vao.drop, h1, h2] at hi hj <;>
      rcases i with _ | _ | i <;> rcases j with _ | _ | j <;> simp_all
  · intro h0 h
    simp [Vao.drop, h0]
  · intro h0 h
    simp [Vao.drop, h0]
  · intro h1 h2
    simp [Vao.drop, h1, h2]

/-- Witness for C3 at concrete Vaos: live handles give buffer-then-array
order, zeroed handles give the empty teardown. -/
theorem vao_drop_teardown_witness : (0 : Nat) < 1 ∧ vaoZeroed.drop = [] :=
  ⟨(vao_drop_teardown vaoLive).2.1 0 1 3 2 (by decide) (by decide),
   (vao_drop_teardown vaoZeroed).2.2.2.2 rfl rfl⟩

/-- C7: a mismatch between the declared attribute count and the length of
either attribute list makes construction terminate (the `debug_assert_eq!`
fires, modelled as `none`); when both lists have the declared length the
check never fires and construction proceeds. -/
theorem vao_new_length_check (vaoH vboH : Nat) (size : Int) (data usage : Nat)
    (n : Nat) (types : List Nat) (sizes : List Int) (stride vnum : Int)
    (cfg : VaoConfig) :
    (types.length = n → sizes.length = n →
      (Vao.new vaoH vboH size data usage n types sizes stride vnum cfg).isSome = true) ∧
    (types.length ≠ n ∨ sizes.length ≠ n →
      Vao.new vaoH vboH size data usage n types sizes stride vnum cfg = none) := by
  constructor
  · intro h1 h2
    unfold Vao.new
    rw [if_pos ⟨h1.symm, h2.symm⟩]
    rfl
  · intro h
    unfold Vao.new
    rw [if_neg]
    rintro ⟨ha, hb⟩
    rcases h with h | h
    · exact h ha.symm
    · exact h hb.symm

/-- Witness for C7: matching lengths construct, a mismatched count refuses. -/
theorem vao_new_length_check_witness :
    (Vao.new 1 2 20 0 35044 2 [5126, 5126] [3, 2] 20 1 cfg0).isSome = true ∧
    Vao.new 1 2 20 0 35044 3 [5126, 5126] [3, 2] 20 1 cfg0 = none :=
  ⟨(vao_new_length_check 1 2 20 0 35044 2 [5126, 5126] [3, 2] 20 1 cfg0).1 rfl rfl,
   (vao_new_length_check 1 2 20 0 35044 3 [5126, 5126] [3, 2] 20 1 cfg0).2
     (Or.inl (by decide))⟩

/-- C2: every `Vao::draw` first issues the four render-state settings
matching the config, then binds the vertex array, issues exactly one draw
call over `[0, vertex_num)`, unbinds the vertex array and unbinds the 2D
texture; afterwards the vertex-array and texture bindings are reset to none
from any starting binding state. -/
theorem vao_draw_sequence (v : Vao) (u : UniformVariables) (mode : Nat)
    (b : GLBindings) :
    v.draw u mode = renderStateCalls v.config
      ++ [GLCall.BindVertexArray v.vao,
          GLCall.DrawArrays mode 0 v.vertex_num,
          GLCall.BindVertexArray 0,
          GLCall.BindTexture GL_TEXTURE_2D 0] ∧
    (v.draw u mode).filter isDrawArrays = [GLCall.DrawArrays mode 0 v.vertex_num] ∧
    (runBindings b (v.draw u mode)).vertexArray = 0 ∧
    (runBindings b (v.draw u mode)).texture2d = 0 := by
  obtain ⟨vao, vbo, vnum, dt, bl, wf, cu⟩ := v
  refine ⟨rfl, ?_, ?_, ?_⟩ <;>
    cases dt <;> cases bl <;> cases wf <;> cases cu <;>
      simp [Vao.draw, runBindings, stepBinding, isDrawArrays,
        GL_ARRAY_BUFFER, GL_TEXTURE_2D]

/-- The attribute-configuration loop touches no global binding state. -/
theorem attribCalls_bindings (stride : Int) :
    ∀ (types : List Nat) (sizes : List Int) (i0 off0 : Nat) (b : GLBindings),
      runBindings b (attribCalls types sizes stride i0 off0) = b := by
  intro types
  induction types with
  | nil => intro sizes i0 off0 b; cases sizes <;> rfl
  | cons t ts ih =>
      intro sizes i0 off0 b
      cases sizes with
      | nil => rfl
      | cons sz szs =>
          simpa [attribCalls, runBindings, stepBinding] using ih szs (i0 + 1) _ b

/-- The attribute-configuration loop allocates nothing. -/
theorem attribCalls_no_gen (stride : Int) :
    ∀ (types : List Nat) (sizes : List Int) (i0 off0 : Nat),
      GLCall.GenVertexArrays ∉ attribCalls types sizes stride i0 off0 ∧
      GLCall.GenBuffers ∉ attribCalls types sizes stride i0 off0 := by
  intro types
  induction types with
  | nil => intro sizes i0 off0; cases sizes <;> simp [attribCalls]
  | cons t ts ih =>
      intro sizes i0 off0
      cases sizes with
      | nil => simp [attribCalls]
      | cons sz szs =>
          have h := ih szs (i0 + 1) ((off0 + glintAsUsize sz) % 2 ^ 64)
          simp [attribCalls]
          exact ⟨h.1, h.2⟩

/-- The attribute-configuration loop issues two calls per layout entry. -/
theorem attribCalls_length (stride : Int) :
    ∀ (types : List Nat) (sizes : List Int) (i0 off0 : Nat),
      (attribCalls types sizes stride i0 off0).length
        = 2 * min types.length sizes.length := by
  intro types
  induction types with
  | nil => intro sizes i0 off0; cases sizes <;> simp [attribCalls]
  | cons t ts ih =>
      intro sizes i0 off0
      cases sizes with
      | nil => simp [attribCalls]
      | cons sz szs =>
          have h := ih szs (i0 + 1) ((off0 + glintAsUsize sz) % 2 ^ 64)
          simp only [attribCalls, List.length_cons, h]
          omega

/-- Each layout entry `j` gets slot `i0 + j`, its own component count and
type, the shared stride, and byte offset `4 * (off0 + running sum of the
component counts of the entries before it)`, provided component counts are
nonnegative and the offsets stay below `2^64`. -/
theorem attribCalls_pointer_mem (stride : Int) :
    ∀ (types : List Nat) (sizes : List Int) (i0 off0 : Nat),
      (∀ x ∈ sizes, 0 ≤ x) →
      4 * (off0 + ((sizes.map Int.toNat).sum)) < 2 ^ 64 →
      ∀ (j : Nat) (hj1 : j < types.length) (hj2 : j < sizes.length),
        GLCall.VertexAttribPointer (i0 + j) (sizes.get ⟨j, hj2⟩)
          (types.get ⟨j, hj1⟩) false stride (4 * (off0 + sumSizes sizes j))
          ∈ attribCalls types sizes stride i0 off0 := by
  intro types
  induction types with
  | nil =>
      intro sizes i0 off0 _ _ j hj1 hj2
      exact absurd hj1 (Nat.not_lt_zero j)
  | cons t ts ih =>
      intro sizes i0 off0 hnn hbound j hj1 hj2
      cases sizes with
      | nil => exact absurd hj2 (Nat.not_lt_zero j)
      | cons sz szs =>
          have hsz0 : 0 ≤ sz := hnn sz (List.mem_cons_self _ _)
          have hsum : ((sz :: szs).map Int.toNat).sum
              = sz.toNat + (szs.map Int.toNat).sum := by simp
          rw [hsum] at hbound
          have hglint : glintAsUsize sz = sz.toNat := by
            unfold glintAsUsize
            omega
          cases j with
          | zero =>
              have he : GLCall.VertexAttribPointer (i0 + 0)
                  ((sz :: szs).get ⟨0, hj2⟩) ((t :: ts).get ⟨0, hj1⟩)
                  false stride (4 * (off0 + sumSizes (sz :: szs) 0))
                  = GLCall.VertexAttribPointer i0 sz t false stride
                      (usizeMul off0 4) := by
                unfold usizeMul sumSizes
                simp
                omega
              rw [he]
              simp [attribCalls]
          | succ k =>
              have hmod : (off0 + glintAsUsize sz) % 2 ^ 64 = off0 + sz.toNat := by
                rw [hglint]
                omega
              have hmem := ih szs (i0 + 1) (off0 + sz.toNat)
                (fun x hx => hnn x (List.mem_cons_of_mem _ hx)) (by omega) k
                (Nat.lt_of_succ_lt_succ hj1) (Nat.lt_of_succ_lt_succ hj2)
              have he : GLCall.VertexAttribPointer (i0 + (k + 1))
                  ((sz :: szs).get ⟨k + 1, hj2⟩) ((t :: ts).get ⟨k + 1, hj1⟩)
                  false stride (4 * (off0 + sumSizes (sz :: szs) (k + 1)))
                  = GLCall.VertexAttribPointer ((i0 + 1) + k)
                      (szs.get ⟨k, Nat.lt_of_succ_lt_succ hj2⟩)
                      (ts.get ⟨k, Nat.lt_of_succ_lt_succ hj1⟩)
                      false stride (4 * ((off0 + sz.toNat) + sumSizes szs k)) := by
                have hss : sumSizes (sz :: szs) (k + 1)
                    = sz.toNat + sumSizes szs k := by
                  simp [sumSizes]
                simp [hss]
                omega
              rw [he]
              simp only [attribCalls]
              rw [hmod]
              exact List.mem_cons_of_mem _ (List.mem_cons_of_mem _ hmem)

/-- C4: under the length precondition (and component counts that are
nonnegative and small enough that the `usize` offsets do not wrap) a `Vao`
construction issues: one vertex-array allocation, one buffer allocation,
bind array, bind buffer, upload under the usage hint, two configuration
calls per layout entry where entry `j`'s byte offset is the running sum of
the component counts of the entries before it times the 4-byte float size,
then unbind buffer and unbind array — and from any starting binding state,
the array-buffer and vertex-array bindings end reset to none. -/
theorem vao_new_construction (vaoH vboH : Nat) (size : Int) (data usage : Nat)
    (n : Nat) (types : List Nat) (sizes : List Int) (stride vnum : Int)
    (cfg : VaoConfig) (b : GLBindings)
    (hT : types.length = n) (hS : sizes.length = n)
    (hnn : ∀ x ∈ sizes, 0 ≤ x)
    (hbound : 4 * ((sizes.map Int.toNat).sum) < 2 ^ 64) :
    ∃ tr, Vao.new vaoH vboH size data usage n types sizes stride vnum cfg
        = some (⟨vaoH, vboH, vnum, cfg⟩, tr) ∧
      tr = [GLCall.GenVertexArrays, GLCall.GenBuffers,
            GLCall.BindVertexArray vaoH,
            GLCall.BindBuffer GL_ARRAY_BUFFER vboH,
            GLCall.BufferData GL_ARRAY_BUFFER size data usage]
        ++ attribCalls types sizes stride 0 0
        ++ [GLCall.BindBuffer GL_ARRAY_BUFFER 0, GLCall.BindVertexArray 0] ∧
      tr.count GLCall.GenVertexArrays = 1 ∧
      tr.count GLCall.GenBuffers = 1 ∧
      tr.length = 7 + 2 * n ∧
      (∀ (j : Nat) (hj1 : j < types.length) (hj2 : j < sizes.length),
        GLCall.VertexAttribPointer j (sizes.get ⟨j, hj2⟩) (types.get ⟨j, hj1⟩)
          false stride (4 * sumSizes sizes j) ∈ tr) ∧
      (runBindings b tr).arrayBuffer = 0 ∧
      (runBindings b tr).vertexArray = 0 := by
  refine ⟨_, ?_, rfl, ?_, ?_, ?_, ?_, ?_, ?_⟩
  · unfold Vao.new
    rw [if_pos ⟨hT.symm, hS.symm⟩]
  · have h := (attribCalls_no_gen stride types sizes 0 0).1
    simp [List.count_append, List.count_cons, List.count_eq_zero.mpr h]
  · have h := (attribCalls_no_gen stride types sizes 0 0).2
    simp [List.count_append, List.count_cons, List.count_eq_zero.mpr h]
  · have h := attribCalls_length stride types sizes 0 0
    simp [h, hT, hS]
    omega
  · intro j hj1 hj2
    have h := attribCalls_pointer_mem stride types sizes 0 0 hnn
      (by simpa using hbound) j hj1 hj2
    simp only [Nat.zero_add] at h
    refine List.mem_append_left _ (List.mem_append_right _ ?_)
    simpa using h
  · rw [runBindings, List.foldl_append, List.foldl_append,
      ← runBindings, ← runBindings, ← runBindings, attribCalls_bindings]
    simp [runBindings, stepBinding, GL_ARRAY_BUFFER, GL_TEXTURE_2D]
  · rw [runBindings, List.foldl_append, List.foldl_append,
      ← runBindings, ← runBindings, ← runBindings, attribCalls_bindings]
    simp [runBindings, stepBinding, GL_ARRAY_BUFFER, GL_TEXTURE_2D]

/-- Witness for C4 at a concrete interleaved layout (three float attributes
with component counts 3, 3, 2 and stride 32): construction succeeds. -/
theorem vao_new_construction_witness :
    (Vao.new 1 2 32 0 35044 3 [5126, 5126, 5126] [3, 3, 2] 32 6 cfg0).isSome
      = true := by
  obtain ⟨tr, h1, -⟩ := vao_new_construction 1 2 32 0 35044 3
    [5126, 5126, 5126] [3, 3, 2] 32 6 cfg0 ⟨7, 8, 9⟩ rfl rfl
    (by decide) (by decide)
  rw [h1]
  rfl

/-! ## Claims about `Scene` -/

/-- The fold over zero systems leaves the World untouched. -/
theorem worldAfterFirst_zero (frame : Nat) (w : World) (ss : List System) :
    worldAfterFirst frame w ss 0 = w := rfl

/-- Prefix folds step through the head system. -/
theorem worldAfterFirst_succ_cons (frame : Nat) (w : World) (sys : System)
    (rest : List System) (j : Nat) :
    worldAfterFirst frame w (sys :: rest) (j + 1)
      = worldAfterFirst frame (sys.updateFn frame w) rest j := by
  simp [worldAfterFirst]

/-- The update loop emits one event per system, in list order, each
recording the World produced by the systems before it, and returns the
World after all systems. -/
theorem runUpdates_spec (frame : Nat) :
    ∀ (ss : List System) (w : World) (i0 : Nat),
      (runUpdates frame w ss i0).2
        = (List.range ss.length).map
            (fun j => Event.systemUpdate (i0 + j) (worldAfterFirst frame w ss j)) ∧
      (runUpdates frame w ss i0).1 = worldAfterFirst frame w ss ss.length := by
  intro ss
  induction ss with
  | nil => intro w i0; exact ⟨rfl, rfl⟩
  | cons sys rest ih =>
      intro w i0
      have h := ih (sys.updateFn frame w) (i0 + 1)
      constructor
      · simp only [runUpdates, h.1, List.length_cons, List.range_succ_eq_map,
          List.map_cons, List.map_map]
        refine congrArg₂ (· :: ·) ?_ ?_
        · rw [worldAfterFirst_zero, Nat.add_zero]
        · refine List.map_congr_left ?_
          intro j hj
          show Event.systemUpdate ((i0 + 1) + j)
              (worldAfterFirst frame (sys.updateFn frame w) rest j) = _
          rw [Function.comp_apply, worldAfterFirst_succ_cons]
          congr 1
          omega
      · simp only [runUpdates, h.2, List.length_cons, worldAfterFirst_succ_cons]

/-- The update events of one tick project to exactly the index list
`range n`: one hook invocation per registered system. -/
theorem filterMap_update_range (f : Nat → World) (n : Nat) :
    ((List.range n).map (fun j => Event.systemUpdate j (f j))).filterMap
      updateIndex = List.range n := by
  rw [List.filterMap_map]
  have h : (updateIndex ∘ fun j => Event.systemUpdate j (f j)) = some := by
    funext j
    rfl
  rw [h, List.filterMap_some]

/-- Each index occurs in `range n` once when below `n`, never otherwise. -/
theorem count_range_eq (n i : Nat) :
    (List.range n).count i = if i < n then 1 else 0 := by
  induction n with
  | zero => simp
  | succ m ih =>
      rw [List.range_succ, List.count_append, ih]
      simp only [List.count_cons, List.count_nil, beq_iff_eq]
      split_ifs <;> omega

/-- C5: `Scene::update` invokes every registered system's update hook
exactly once, in registration order; the World each system receives is the
World left by all systems registered before it (so an earlier system's
mutations are observable by every later one in the same tick), and the
scene keeps the World produced by the last system. -/
theorem scene_update_order (s : Scene) (frame : Nat) :
    (s.update frame).2
      = (List.range s.systems.length).map
          (fun i => Event.systemUpdate i (worldAfterFirst frame s.world s.systems i)) ∧
    (s.update frame).1.world
      = worldAfterFirst frame s.world s.systems s.systems.length ∧
    (s.update frame).1.systems = s.systems ∧
    ∀ i : Nat,
      ((s.update frame).2.filterMap updateIndex).count i
        = if i < s.systems.length then 1 else 0 := by
  have h := runUpdates_spec frame s.systems s.world 0
  have htrace : (s.update frame).2
      = (List.range s.systems.length).map
          (fun i => Event.systemUpdate i (worldAfterFirst frame s.world s.systems i)) := by
    have htr : (s.update frame).2 = (runUpdates frame s.world s.systems 0).2 := rfl
    rw [htr, h.1]
    refine List.map_congr_left ?_
    intro j hj
    rw [Nat.zero_add]
  refine ⟨htrace, ?_, rfl, ?_⟩
  · exact h.2
  · intro i
    rw [htrace, filterMap_update_range, count_range_eq]

/-- C6: `Scene::setup` first calls `setup` on the Sprite component of every
entity possessing one (in query order), and only afterwards calls `setup`
on every registered system in registration order: no system-setup event
precedes any sprite-setup event. -/
theorem scene_setup_order (s : Scene) :
    s.setup = (s.world.querySprite.map (fun p => Event.spriteSetup p.1))
      ++ ((List.range s.systems.length).map Event.systemSetup) ∧
    (∀ (i j k e : Nat), s.setup[i]? = some (Event.systemSetup k) →
      s.setup[j]? = some (Event.spriteSetup e) → j < i) := by
  refine ⟨rfl, ?_⟩
  intro i j k e hi hj
  have hsetup : s.setup
      = (s.world.querySprite.map (fun p => Event.spriteSetup p.1))
        ++ ((List.range s.systems.length).map Event.systemSetup) := rfl
  rw [hsetup] at hi hj
  by_cases hiA : i < (s.world.querySprite.map (fun p => Event.spriteSetup p.1)).length
  · exfalso
    rw [List.getElem?_append_left hiA, List.getElem?_map] at hi
    cases hq : (s.world.querySprite)[i]? <;> rw [hq] at hi <;> simp at hi
  · push_neg at hiA
    by_cases hjA : j < (s.world.querySprite.map (fun p => Event.spriteSetup p.1)).length
    · omega
    · exfalso
      push_neg at hjA
      rw [List.getElem?_append_right hjA, List.getElem?_map] at hj
      cases hq : (List.range s.systems.length)[j - (s.world.querySprite.map
          (fun p => Event.spriteSetup p.1)).length]? <;> rw [hq] at hj <;> simp at hj

/-- Witness for C6 at a concrete scene (one sprite entity, one system):
the sole system-setup event sits after the sole sprite-setup event. -/
theorem scene_setup_order_witness : (0 : Nat) < 1 :=
  (scene_setup_order sceneOneOne).2 1 0 0 0 (by decide) (by decide)

/-- C1 as stated is false: in a scene with one spawned entity and one
registered system, `Scene::render` emits only the sprite render and never
the system's render hook. -/
theorem scene_render_claim_counterexample : ¬ claimRenderSystems sceneOneOne := by
  unfold claimRenderSystems
  decide

/-- C1 amended: `Scene::render` invokes the render method of the sprite of
exactly the entities possessing both a Transform and a Sprite component (in
query order), and invokes no registered system's render hook at all. -/
theorem scene_render_sprites_only (s : Scene) :
    s.render = s.world.queryBoth.map (fun p => Event.spriteRender p.1) ∧
    (∀ e : Nat, Event.spriteRender e ∈ s.render ↔
      ∃ d, (e, d) ∈ s.world.entities ∧
        d.hasComp transformTag = true ∧ d.hasComp spriteTag = true) ∧
    (∀ i : Nat, Event.systemRender i ∉ s.render) := by
  refine ⟨rfl, ?_, ?_⟩
  · intro e
    simp only [Scene.render, World.queryBoth, List.mem_map, List.mem_filter]
    constructor
    · rintro ⟨⟨a, d⟩, ⟨hmem, hcomp⟩, heq⟩
      simp only [Event.spriteRender.injEq] at heq
      subst heq
      rw [Bool.and_eq_true] at hcomp
      exact ⟨d, hmem, hcomp.1, hcomp.2⟩
    · rintro ⟨d, hmem, h1, h2⟩
      exact ⟨(e, d), ⟨hmem, by rw [Bool.and_eq_true]; exact ⟨h1, h2⟩⟩, rfl⟩
  · intro i
    simp [Scene.render, List.mem_map]

/-- Witness for the amended C1 at a concrete scene: the spawned entity's
sprite renders, the registered system's render hook does not run. -/
theorem scene_render_sprites_only_witness :
    Event.spriteRender 0 ∈ sceneOneOne.render ∧
    Event.systemRender 0 ∉ sceneOneOne.render :=
  ⟨((scene_render_sprites_only sceneOneOne).2.1 0).mpr
      ⟨⟨[(transformTag, 7), (spriteTag, 8)]⟩, by decide, by decide, by decide⟩,
   (scene_render_sprites_only sceneOneOne).2.2 0⟩

/-- C9: in any scene state reachable through the Scene public interface
without `attach_component` calls, every spawned entity carries both a
Transform and a Sprite component, so the (Transform, Sprite) query that
`render` uses covers the entire entity set. -/
theorem scene_reachable_query_full (s : Scene) (h : ReachableNoAttach s) :
    s.world.queryBoth = s.world.entities := by
  induction h with
  | init => rfl
  | newEntity s' tv sv hr ih =>
      unfold World.queryBoth at ih ⊢
      simp only [Scene.new_entity, World.spawn, List.filter_append, ih]
      simp [EntityData.hasComp, transformTag, spriteTag]
  | registerSystem s' sys hr ih =>
      exact ih

/-- Witness for C9 at a concrete reachable scene. -/
theorem scene_reachable_query_full_witness :
    sceneOneOne.world.queryBoth = sceneOneOne.world.entities :=
  scene_reachable_query_full sceneOneOne
    (ReachableNoAttach.registerSystem _ sysId
      (ReachableNoAttach.newEntity _ 7 8 ReachableNoAttach.init))

/-- Replacing a component on entity `e` preserves every entry's id, so
id-keyed lookups traverse the updated store in step with the original. -/
theorem find?_fst_map_insert (e e2 : Nat) (t : TypeTag) (v : Nat) :
    ∀ l : List (Nat × EntityData),
      (l.map (fun p => if p.1 = e then (p.1, p.2.setComp t v) else p)).find?
          (fun p => decide (p.1 = e2))
        = (l.find? (fun p => decide (p.1 = e2))).map
            (fun p => if p.1 = e then (p.1, p.2.setComp t v) else p) := by
  intro l
  induction l with
  | nil => rfl
  | cons p ps ih =>
      simp only [List.map_cons]
      by_cases hp : p.1 = e2
      · have h1 : (decide (p.1 = e2)) = true := by simp [hp]
        have h2 : (decide (((if p.1 = e then (p.1, p.2.setComp t v) else p)
            : Nat × EntityData).1 = e2)) = true := by
          split <;> simp [hp]
        simp only [List.find?_cons, h1, h2]
        rfl
      · have h1 : (decide (p.1 = e2)) = false := by simp [hp]
        have h2 : (decide (((if p.1 = e then (p.1, p.2.setComp t v) else p)
            : Nat × EntityData).1 = e2)) = false := by
          split <;> simp [hp]
        simp only [List.find?_cons, h1, h2]
        exact ih

/-- After the insert-map, looking up the target entity yields its old data
with the component replaced. -/
theorem get_mapWorld_self (w : World) (e : Nat) (t : TypeTag) (v : Nat) :
    (⟨w.nextId, w.entities.map
        (fun p => if p.1 = e then (p.1, p.2.setComp t v) else p)⟩ : World).get e
      = (w.get e).map (fun d => d.setComp t v) := by
  unfold World.get
  rw [find?_fst_map_insert]
  cases hf : w.entities.find? (fun p => decide (p.1 = e)) with
  | none => rfl
  | some q =>
      have hq1 : q.1 = e := by simpa using List.find?_some hf
      simp [hq1]

/-- After the insert-map, looking up any other entity is unchanged. -/
theorem get_mapWorld_other (w : World) (e : Nat) (t : TypeTag) (v : Nat)
    (e2 : Nat) (he2 : e2 ≠ e) :
    (⟨w.nextId, w.entities.map
        (fun p => if p.1 = e then (p.1, p.2.setComp t v) else p)⟩ : World).get e2
      = w.get e2 := by
  unfold World.get
  rw [find?_fst_map_insert]
  cases hf : w.entities.find? (fun p => decide (p.1 = e2)) with
  | none => rfl
  | some q =>
      have hq1 : q.1 = e2 := by simpa using List.find?_some hf
      have hqe : ¬ (q.1 = e) := by rw [hq1]; exact he2
      simp [hqe]

/-- A contained entity has stored data. -/
theorem contains_get (w : World) (e : Nat) (h : w.contains e = true) :
    ∃ d, w.get e = some d := by
  unfold World.contains at h
  obtain ⟨p, hp, hpe⟩ := List.any_eq_true.mp h
  have hs : (w.entities.find? (fun p => decide (p.1 = e))).isSome :=
    List.find?_isSome.mpr ⟨p, hp, hpe⟩
  obtain ⟨q, hq⟩ := Option.isSome_iff_exists.mp hs
  exact ⟨q.2, by unfold World.get; rw [hq]; rfl⟩

/-- Overwrite semantics: after `setComp`, the component of type `t` reads
back as the new payload. -/
theorem getComp_setComp_self (d : EntityData) (t : TypeTag) (v : Nat) :
    (d.setComp t v).getComp t = some v := by
  unfold EntityData.setComp
  have hfun : ((fun p => decide (p.1 = t))
      ∘ (fun p : TypeTag × Nat => if p.1 = t then (t, v) else p))
      = (fun p : TypeTag × Nat => decide (p.1 = t)) := by
    funext p
    by_cases hp : p.1 = t <;> simp [hp]
  by_cases h : d.hasComp t
  · rw [if_pos h]
    unfold EntityData.getComp
    simp only [List.find?_map, hfun]
    unfold EntityData.hasComp at h
    obtain ⟨p, hp, hpe⟩ := List.any_eq_true.mp h
    have hs : (d.comps.find? (fun p => decide (p.1 = t))).isSome :=
      List.find?_isSome.mpr ⟨p, hp, hpe⟩
    obtain ⟨q, hq⟩ := Option.isSome_iff_exists.mp hs
    have hq1 : q.1 = t := by simpa using List.find?_some hq
    simp [hq, hq1]
  · rw [if_neg h]
    unfold EntityData.getComp
    rw [List.find?_append]
    have hnone : d.comps.find? (fun p => decide (p.1 = t)) = none := by
      rw [List.find?_eq_none]
      intro x hx hxe
      unfold EntityData.hasComp at h
      exact h (List.any_eq_true.mpr ⟨x, hx, hxe⟩)
    rw [hnone]
    simp

/-- `setComp` touches no other component type. -/
theorem getComp_setComp_other (d : EntityData) (t : TypeTag) (v : Nat)
    (t2 : TypeTag) (h2 : t2 ≠ t) :
    (d.setComp t v).getComp t2 = d.getComp t2 := by
  unfold EntityData.setComp
  have hfun : ((fun p => decide (p.1 = t2))
      ∘ (fun p : TypeTag × Nat => if p.1 = t then (t, v) else p))
      = (fun p : TypeTag × Nat => decide (p.1 = t2)) := by
    funext p
    by_cases hp : p.1 = t <;> simp [hp]
  by_cases h : d.hasComp t
  · rw [if_pos h]
    unfold EntityData.getComp
    simp only [List.find?_map, hfun]
    cases hf : d.comps.find? (fun p => decide (p.1 = t2)) with
    | none => rfl
    | some q =>
        have hq1 : q.1 = t2 := by simpa using List.find?_some hf
        have hqt : ¬ (q.1 = t) := by rw [hq1]; exact h2
        simp [hqt]
  · rw [if_neg h]
    unfold EntityData.getComp
    rw [List.find?_append]
    cases hf : d.comps.find? (fun p => decide (p.1 = t2)) with
    | none =>
        have hlast : ([((t : TypeTag), v)].find? (fun p => decide (p.1 = t2)))
            = none := by
          simp
          exact fun ht => absurd ht.symm h2
        rw [hlast]
        rfl
    | some q => rfl

/-- The branch structure of `hecs::World::insert_one`. -/
theorem insert_one_cases (w : World) (e : Nat) (t : TypeTag) (v : Nat) :
    (w.contains e = true →
      w.insert_one e t v
        = some ⟨w.nextId, w.entities.map
            (fun p => if p.1 = e then (p.1, p.2.setComp t v) else p)⟩) ∧
    (w.contains e = false → w.insert_one e t v = none) := by
  unfold World.insert_one
  constructor <;> intro h <;> simp [h]

/-- C8: `attach_component` succeeds on an existing entity, adding or
replacing exactly its component of type `t` (other component types of the
entity and the components of every other entity are unchanged, and the
system list is untouched); on a nonexistent entity the insert error is
fatal (the logged unwrap panics, modelled as `none`). -/
theorem scene_attach_component_spec (s : Scene) (e : Nat) (t : TypeTag) (v : Nat) :
    (s.world.contains e = true →
      ∃ s2, s.attach_component e t v = some s2 ∧
        s2.systems = s.systems ∧
        (∃ d, s.world.get e = some d ∧ s2.world.get e = some (d.setComp t v) ∧
          (d.setComp t v).getComp t = some v ∧
          (∀ t2, t2 ≠ t → (d.setComp t v).getComp t2 = d.getComp t2)) ∧
        (∀ e2, e2 ≠ e → s2.world.get e2 = s.world.get e2)) ∧
    (s.world.contains e = false → s.attach_component e t v = none) := by
  constructor
  · intro h
    have hins := (insert_one_cases s.world e t v).1 h
    obtain ⟨d, hd⟩ := contains_get s.world e h
    refine ⟨{ s with world := ⟨s.world.nextId, s.world.entities.map
        (fun p => if p.1 = e then (p.1, p.2.setComp t v) else p)⟩ }, ?_, rfl,
      ⟨d, hd, ?_, getComp_setComp_self d t v,
        fun t2 ht2 => getComp_setComp_other d t v t2 ht2⟩, ?_⟩
    · unfold Scene.attach_component
      rw [hins]
      rfl
    · show (⟨s.world.nextId, s.world.entities.map
          (fun p => if p.1 = e then (p.1, p.2.setComp t v) else p)⟩ : World).get e
        = some (d.setComp t v)
      rw [get_mapWorld_self, hd]
      rfl
    · intro e2 he2
      exact get_mapWorld_other s.world e t v e2 he2
  · intro h
    unfold Scene.attach_component
    rw [(insert_one_cases s.world e t v).2 h]
    rfl

/-- Witness for C8 at a concrete scene: attaching to the spawned entity 0
succeeds, attaching to the nonexistent entity 9 is fatal. -/
theorem scene_attach_component_spec_witness :
    (sceneOneOne.attach_component 0 5 42).isSome = true ∧
    sceneOneOne.attach_component 9 5 42 = none := by
  have h1 := (scene_attach_component_spec sceneOneOne 0 5 42).1 (by decide)
  have h2 := (scene_attach_component_spec sceneOneOne 9 5 42).2 (by decide)
  obtain ⟨s2, hs2, -⟩ := h1
  exact ⟨by rw [hs2]; rfl, h2⟩

end Reverie
